import Mathlib

/-!
Verification development for the vinyl write scheduler
(src/box/vy_scheduler.c). The definitions below are a shallow embedding
of the scheduler state and of the operations acting on it; machine
doubles (timestamps, the back-off timeout) are embedded as rationals,
64-bit signed counters as Int, and C bools as Bool.
-/

set_option maxHeartbeats 1000000

/-- Sealed in-memory tree of an LSM tree, as seen by the scheduler:
its generation tag and its statement count (vy_mem, external). -/
structure VyMem where
  generation : Int
  count : Nat
  deriving Repr, DecidableEq

/-- Run produced by a dump or compaction task. Emptiness is modelled
from the spec as an abstract flag because vy_run_is_empty lives in
vy_run.h, which is not among the sources. -/
structure VyRun where
  id : Nat
  dump_lsn : Int
  is_empty : Bool
  deriving Repr, DecidableEq

/-- LSM tree fields read by the scheduler. The field generation stands
for vy_lsm_generation, modelled from the spec: the generation of the
oldest in-memory data of the tree, with generation(tree) bounded by the
scheduler generation. -/
structure VyLsm where
  id : Nat
  index_id : Nat
  space_id : Nat
  generation : Int
  is_dumping : Bool
  is_dropped : Bool
  pin_count : Nat
  sealed : List VyMem
  dump_lsn : Int
  deriving Repr, DecidableEq

/-- Comparator of the scheduler dump heap, vy_dump_heap_less:
lexicographic on (is_dumping, pin_count, generation) ascending and
index_id descending. -/
def vy_dump_heap_less (i1 i2 : VyLsm) : Bool :=
  if i1.is_dumping ≠ i2.is_dumping then
    decide (i1.is_dumping < i2.is_dumping)
  else if i1.pin_count ≠ i2.pin_count then
    decide (i1.pin_count < i2.pin_count)
  else if i1.generation ≠ i2.generation then
    decide (i1.generation < i2.generation)
  else
    decide (i1.index_id > i2.index_id)

/-- Modelled from the spec: the dump heap container comes from
salad/heap.h, which is not among the sources; its contract is that the
top is a least element under vy_dump_heap_less. The heap content is
embedded as a list and the top as a least element of the list. -/
def vy_dump_heap_top : List VyLsm → Option VyLsm :=
  List.foldl
    (fun acc x =>
      match acc with
      | none => some x
      | some m => if vy_dump_heap_less x m then some x else some m)
    none

/-- Scheduler state (struct vy_scheduler), restricted to the fields the
generation and checkpoint machinery reads and writes. The diagnostics
slot is embedded as an abstract error token. -/
structure VyScheduler where
  generation : Int
  dump_generation : Int
  dump_task_count : Nat
  dump_start : ℚ
  checkpoint_in_progress : Bool
  dump_pending : Bool
  is_throttled : Bool
  timeout : ℚ
  sched_diag : Nat
  dump_heap : List VyLsm
  deriving Repr, DecidableEq

/-- Modelled from the spec: vy_scheduler_dump_in_progress is declared in
vy_scheduler.h, which is not among the sources; the spec defines it as
dump_generation < generation. -/
def vy_scheduler_dump_in_progress (s : VyScheduler) : Bool :=
  decide (s.dump_generation < s.generation)

/-- vy_scheduler_trigger_dump. The returned flag records whether
scheduler_cond was signalled. -/
def vy_scheduler_trigger_dump (now : ℚ) (s : VyScheduler) :
    VyScheduler × Bool :=
  if vy_scheduler_dump_in_progress s then
    (s, false)
  else if s.checkpoint_in_progress then
    ({ s with dump_pending := true }, false)
  else
    ({ s with dump_start := now,
              generation := s.generation + 1,
              dump_pending := false }, true)

/-- Result of one pass through the body of vy_scheduler_dump: the fiber
either blocks waiting for the checkpoint, fails with the cached
diagnostics, blocks on dump_cond, or returns success. -/
inductive DumpCallResult where
  | wait_ckpt
  | err (diag : Nat)
  | wait_dump
  | ok
  deriving Repr, DecidableEq

/-- One step of vy_scheduler_dump: the non-blocking prefix of the call
(generation advance) followed by the first check of the wait loop. -/
def vy_scheduler_dump_step (now : ℚ) (s : VyScheduler) :
    VyScheduler × DumpCallResult :=
  if s.checkpoint_in_progress then
    (s, DumpCallResult.wait_ckpt)
  else
    let s1 := if ¬ vy_scheduler_dump_in_progress s then
                { s with dump_start := now }
              else s
    let s2 := { s1 with generation := s1.generation + 1 }
    if vy_scheduler_dump_in_progress s2 then
      if s2.is_throttled then (s2, DumpCallResult.err s2.sched_diag)
      else (s2, DumpCallResult.wait_dump)
    else (s2, DumpCallResult.ok)

/-- Outcome of vy_scheduler_begin_checkpoint. -/
inductive CkptResult where
  | ok
  | err (diag : Nat)
  deriving Repr, DecidableEq

/-- vy_scheduler_begin_checkpoint (precondition, asserted in the source:
no checkpoint is already in progress). -/
def vy_scheduler_begin_checkpoint (now : ℚ) (s : VyScheduler) :
    VyScheduler × CkptResult :=
  if s.is_throttled then
    (s, CkptResult.err s.sched_diag)
  else
    let s1 := if ¬ vy_scheduler_dump_in_progress s then
                { s with dump_start := now }
              else s
    ({ s1 with generation := s1.generation + 1,
               checkpoint_in_progress := true }, CkptResult.ok)

/-- Result of one pass through vy_scheduler_wait_checkpoint: success,
failure with the cached diagnostics, or a wait on dump_cond. -/
inductive WaitCkptResult where
  | ok
  | err (diag : Nat)
  | wait
  deriving Repr, DecidableEq

/-- One pass through vy_scheduler_wait_checkpoint: the early return when
no checkpoint is in progress, then the first check of the wait loop. -/
def vy_scheduler_wait_checkpoint_step (s : VyScheduler) : WaitCkptResult :=
  if s.checkpoint_in_progress = false then
    WaitCkptResult.ok
  else if vy_scheduler_dump_in_progress s then
    if s.is_throttled then WaitCkptResult.err s.sched_diag
    else WaitCkptResult.wait
  else
    WaitCkptResult.ok

/-- vy_scheduler_complete_dump (the body after the entry assertion
dump_generation < generation). Returns the new state, the invocation of
dump_complete_cb if any, and whether dump_cond was signalled. -/
def vy_scheduler_complete_dump (now : ℚ) (s : VyScheduler) :
    VyScheduler × Option (Int × ℚ) × Bool :=
  if 0 < s.dump_task_count then
    (s, none, false)
  else
    let min_generation :=
      match vy_dump_heap_top s.dump_heap with
      | none => s.generation
      | some lsm => lsm.generation
    if min_generation = s.dump_generation then
      (s, none, false)
    else
      ({ s with dump_start := now, dump_generation := min_generation },
       some (min_generation - 1, now - s.dump_start), true)

/-- vy_scheduler_end_checkpoint. -/
def vy_scheduler_end_checkpoint (now : ℚ) (s : VyScheduler) : VyScheduler :=
  if s.checkpoint_in_progress = false then
    s
  else
    let s1 := { s with checkpoint_in_progress := false }
    if s1.dump_pending then (vy_scheduler_trigger_dump now s1).1 else s1

/-- The operations of the scheduler that read or advance the generation
counters, as a step relation between scheduler states. The hypotheses on
the begin_checkpoint and complete_dump steps are the assertions the
source places at their entries. -/
inductive SchedStep : VyScheduler → VyScheduler → Prop where
  | trigger (now : ℚ) (s : VyScheduler) :
      SchedStep s (vy_scheduler_trigger_dump now s).1
  | dump (now : ℚ) (s : VyScheduler) :
      SchedStep s (vy_scheduler_dump_step now s).1
  | beginCkpt (now : ℚ) (s : VyScheduler)
      (h : s.checkpoint_in_progress = false) :
      SchedStep s (vy_scheduler_begin_checkpoint now s).1
  | endCkpt (now : ℚ) (s : VyScheduler) :
      SchedStep s (vy_scheduler_end_checkpoint now s)
  | completeDump (now : ℚ) (s : VyScheduler)
      (h : s.dump_generation < s.generation) :
      SchedStep s (vy_scheduler_complete_dump now s).1

theorem vy_dump_heap_top_fold_mem (l : List VyLsm) :
    ∀ (acc : Option VyLsm) (x : VyLsm),
      (List.foldl
        (fun acc x =>
          match acc with
          | none => some x
          | some m => if vy_dump_heap_less x m then some x else some m)
        acc l) = some x → (acc = some x ∨ x ∈ l) := by
  induction l with
  | nil =>
    intro acc x h'
    left; simpa using h'
  | cons y ys ih =>
    intro acc x h'
    simp only [List.foldl_cons] at h'
    have step := ih _ x h'
    rcases step with h'' | h''
    · cases acc with
      | none =>
        simp only at h''
        have hyx : y = x := Option.some_inj.mp h''
        right
        exact hyx ▸ List.mem_cons_self y ys
      | some m =>
        simp only at h''
        by_cases hless : vy_dump_heap_less y m
        · simp [hless] at h''
          right
          exact h'' ▸ List.mem_cons_self y ys
        · simp [hless] at h''
          left; exact congrArg some h''
    · right; exact List.mem_cons_of_mem y h''

theorem vy_dump_heap_top_mem {l : List VyLsm} {x : VyLsm}
    (h : vy_dump_heap_top l = some x) : x ∈ l := by
  rcases vy_dump_heap_top_fold_mem l none x h with h' | h'
  · simp at h'
  · exact h'

/-- Concrete scheduler state used by witnesses: fresh scheduler, no round
in progress, no checkpoint, not throttled, empty heap. -/
def sched0 : VyScheduler :=
  { generation := 0, dump_generation := 0, dump_task_count := 0,
    dump_start := 0, checkpoint_in_progress := false, dump_pending := false,
    is_throttled := false, timeout := 0, sched_diag := 0, dump_heap := [] }

/-- Concrete scheduler state with a dump round in progress. -/
def sched1 : VyScheduler :=
  { generation := 1, dump_generation := 0, dump_task_count := 0,
    dump_start := 0, checkpoint_in_progress := false, dump_pending := false,
    is_throttled := false, timeout := 0, sched_diag := 0, dump_heap := [] }

/-- Claim C5: the dump-heap ordering relation compares exactly the
lexicographic key (is_dumping ascending, pin_count ascending, generation
ascending, index_id descending): a tree precedes another iff its
is_dumping flag is smaller, or that ties and its pin_count is smaller, or
those tie and its generation is smaller, or all tie and its index_id is
larger. -/
theorem claim_C5_dump_heap_order (a b : VyLsm) :
    vy_dump_heap_less a b = true ↔
      ((a.is_dumping = false ∧ b.is_dumping = true) ∨
        (a.is_dumping = b.is_dumping ∧
          (a.pin_count < b.pin_count ∨
            (a.pin_count = b.pin_count ∧
              (a.generation < b.generation ∨
                (a.generation = b.generation ∧
                  b.index_id < a.index_id)))))) := by
  cases ha : a.is_dumping <;> cases hb : b.is_dumping <;>
    by_cases h2 : a.pin_count = b.pin_count <;>
    by_cases h3 : a.generation = b.generation <;>
    simp [vy_dump_heap_less, ha, hb, h2, h3]

/-- Claim C1: in every scheduler state satisfying dump_generation ≤
generation whose dump heap members all have generation bounded by the
scheduler generation, every generation-changing operation (trigger_dump,
dump, begin_checkpoint, end_checkpoint, complete_dump) preserves
dump_generation ≤ generation, and a dump round is in progress iff
dump_generation < generation. -/
theorem claim_C1_generation_invariant (s s' : VyScheduler)
    (hinv : s.dump_generation ≤ s.generation)
    (hwf : ∀ lsm ∈ s.dump_heap, lsm.generation ≤ s.generation)
    (hstep : SchedStep s s') :
    s'.dump_generation ≤ s'.generation ∧
      (vy_scheduler_dump_in_progress s' = true ↔
        s'.dump_generation < s'.generation) := by
  refine ⟨?_, by simp [vy_scheduler_dump_in_progress]⟩
  cases hstep with
  | trigger now s =>
    simp only [vy_scheduler_trigger_dump]
    split_ifs <;> (try simp) <;> omega
  | dump now s =>
    simp only [vy_scheduler_dump_step]
    split_ifs <;> (try simp) <;> omega
  | beginCkpt now s h =>
    simp only [vy_scheduler_begin_checkpoint]
    split_ifs <;> (try simp) <;> omega
  | endCkpt now s =>
    simp only [vy_scheduler_end_checkpoint, vy_scheduler_trigger_dump]
    split_ifs <;> (try simp) <;> omega
  | completeDump now s h =>
    have hmin : (match vy_dump_heap_top s.dump_heap with
        | none => s.generation
        | some lsm => lsm.generation) ≤ s.generation := by
      cases htop : vy_dump_heap_top s.dump_heap with
      | none => simp
      | some lsm => simpa using hwf lsm (vy_dump_heap_top_mem htop)
    simp only [vy_scheduler_complete_dump]
    split_ifs <;> simp_all

theorem claim_C1_witness :
    (vy_scheduler_trigger_dump 0 sched0).1.dump_generation ≤
        (vy_scheduler_trigger_dump 0 sched0).1.generation ∧
      (vy_scheduler_dump_in_progress (vy_scheduler_trigger_dump 0 sched0).1
          = true ↔
        (vy_scheduler_trigger_dump 0 sched0).1.dump_generation <
          (vy_scheduler_trigger_dump 0 sched0).1.generation) :=
  claim_C1_generation_invariant sched0 (vy_scheduler_trigger_dump 0 sched0).1
    (by norm_num [sched0]) (by simp [sched0]) (SchedStep.trigger 0 sched0)

/-- Claim C2: trigger_dump is idempotent while a dump round is in progress
(it changes no scheduler state and emits no signal); if a checkpoint is in
progress it only sets dump_pending and does not advance generation;
otherwise it increments generation by exactly 1, clears dump_pending,
records dump_start and signals scheduler_cond. -/
theorem claim_C2_trigger_dump (now : ℚ) (s : VyScheduler) :
    (vy_scheduler_dump_in_progress s = true →
      vy_scheduler_trigger_dump now s = (s, false)) ∧
    (vy_scheduler_dump_in_progress s = false →
      s.checkpoint_in_progress = true →
      vy_scheduler_trigger_dump now s = ({ s with dump_pending := true },
        false)) ∧
    (vy_scheduler_dump_in_progress s = false →
      s.checkpoint_in_progress = false →
      (vy_scheduler_trigger_dump now s).1.generation = s.generation + 1 ∧
      (vy_scheduler_trigger_dump now s).1.dump_pending = false ∧
      (vy_scheduler_trigger_dump now s).1.dump_start = now ∧
      (vy_scheduler_trigger_dump now s).1.dump_generation =
        s.dump_generation ∧
      (vy_scheduler_trigger_dump now s).2 = true) := by
  refine ⟨?_, ?_, ?_⟩
  · intro h
    simp [vy_scheduler_trigger_dump, h]
  · intro h hc
    simp [vy_scheduler_trigger_dump, h, hc]
  · intro h hc
    simp [vy_scheduler_trigger_dump, h, hc]

theorem claim_C2_witness :
    vy_scheduler_trigger_dump 0 sched1 = (sched1, false) :=
  (claim_C2_trigger_dump 0 sched1).1 (by rfl)

/-- Claim C3: from any state in which begin_checkpoint succeeds (not
throttled, no checkpoint already running, generation invariant holding),
begin_checkpoint followed directly by end_checkpoint leaves generation
greater by exactly 1. -/
theorem claim_C3_checkpoint_generation (now1 now2 : ℚ) (s : VyScheduler)
    (hck : s.checkpoint_in_progress = false)
    (hinv : s.dump_generation ≤ s.generation)
    (hok : (vy_scheduler_begin_checkpoint now1 s).2 = CkptResult.ok) :
    (vy_scheduler_end_checkpoint now2
        (vy_scheduler_begin_checkpoint now1 s).1).generation
      = s.generation + 1 := by
  by_cases ht : s.is_throttled
  · simp [vy_scheduler_begin_checkpoint, ht] at hok
  · simp only [vy_scheduler_begin_checkpoint, ht, Bool.false_eq_true,
      if_false]
    by_cases hd : vy_scheduler_dump_in_progress s <;>
      simp only [vy_scheduler_end_checkpoint, vy_scheduler_trigger_dump,
        vy_scheduler_dump_in_progress, hd] <;>
      split_ifs <;> simp_all [vy_scheduler_dump_in_progress] <;> omega

theorem claim_C3_witness :
    (vy_scheduler_end_checkpoint 0
        (vy_scheduler_begin_checkpoint 0 sched0).1).generation
      = sched0.generation + 1 :=
  claim_C3_checkpoint_generation 0 0 sched0 (by rfl) (by norm_num [sched0])
    (by rfl)

/-- Claim C7 counterexample: in a state with no checkpoint in progress, a
dump round in progress and the scheduler not throttled, wait_checkpoint
returns success immediately, so success is not restricted to states with
dump_generation equal to generation. -/
theorem claim_C7_counterexample :
    vy_scheduler_wait_checkpoint_step sched1 = WaitCkptResult.ok ∧
      vy_scheduler_dump_in_progress sched1 = true ∧
      sched1.is_throttled = false := by
  refine ⟨rfl, rfl, rfl⟩

/-- Claim C7 amended: when no checkpoint is in progress wait_checkpoint
returns success immediately, whatever the dump state; when a checkpoint
is in progress, a pass of its wait loop fails carrying the cached
scheduler diagnostic exactly when the scheduler is throttled while a
dump round is in progress, returns success exactly when no dump round is
in progress, and otherwise keeps waiting on dump_cond. -/
theorem claim_C7_wait_checkpoint (s : VyScheduler) :
    (s.checkpoint_in_progress = false →
      vy_scheduler_wait_checkpoint_step s = WaitCkptResult.ok) ∧
    (s.checkpoint_in_progress = true →
      ((∀ d, vy_scheduler_wait_checkpoint_step s = WaitCkptResult.err d ↔
          (vy_scheduler_dump_in_progress s = true ∧
            s.is_throttled = true ∧ d = s.sched_diag)) ∧
        (vy_scheduler_wait_checkpoint_step s = WaitCkptResult.ok ↔
          vy_scheduler_dump_in_progress s = false) ∧
        (vy_scheduler_wait_checkpoint_step s = WaitCkptResult.wait ↔
          (vy_scheduler_dump_in_progress s = true ∧
            s.is_throttled = false)))) := by
  unfold vy_scheduler_wait_checkpoint_step
  by_cases hc : s.checkpoint_in_progress <;>
    by_cases hd : vy_scheduler_dump_in_progress s <;>
    by_cases ht : s.is_throttled <;>
    simp [hc, hd, ht] <;>
    exact fun d => eq_comm

theorem claim_C7_witness :
    vy_scheduler_wait_checkpoint_step sched0 = WaitCkptResult.ok :=
  (claim_C7_wait_checkpoint sched0).1 (by rfl)

/-- VY_SCHEDULER_TIMEOUT_MIN. -/
def VY_SCHEDULER_TIMEOUT_MIN : ℚ := 1

/-- VY_SCHEDULER_TIMEOUT_MAX. -/
def VY_SCHEDULER_TIMEOUT_MAX : ℚ := 60

/-- Error path of the scheduler loop in vy_scheduler_f: double the
timeout, clamp it to the bounds and set is_throttled for the sleep
(dump_cond is signalled first so that checkpoint waiters fail fast; the
error-injection override of the timeout is disabled in the model). -/
def vy_scheduler_throttle (s : VyScheduler) : VyScheduler :=
  let t0 := s.timeout * 2
  let t1 := if t0 < VY_SCHEDULER_TIMEOUT_MIN then VY_SCHEDULER_TIMEOUT_MIN
            else t0
  let t2 := if t1 > VY_SCHEDULER_TIMEOUT_MAX then VY_SCHEDULER_TIMEOUT_MAX
            else t1
  { s with timeout := t2, is_throttled := true }

/-- Wakeup at the end of the back-off sleep in vy_scheduler_f. -/
def vy_scheduler_unthrottle (s : VyScheduler) : VyScheduler :=
  { s with is_throttled := false }

/-- Control action taken by one iteration of the scheduler loop. -/
inductive SchedIterAction where
  | rescan
  | throttle
  | dispatch
  | wait
  deriving Repr, DecidableEq

/-- One iteration of the scheduler loop vy_scheduler_f, after completion
callbacks have run: results holds the outcome of every processed task
(true for completed, false for failed), schedule_ok whether vy_schedule
succeeded and has_task whether it produced a task; s is the state after
the completion phase. -/
def vy_scheduler_f_iteration (results : List Bool)
    (schedule_ok has_task : Bool) (s : VyScheduler) :
    VyScheduler × SchedIterAction :=
  let tasks_done := results.count true
  let tasks_failed := results.count false
  if 0 < tasks_done then
    ({ s with timeout := 0 }, SchedIterAction.rescan)
  else if 0 < tasks_failed then
    (vy_scheduler_throttle s, SchedIterAction.throttle)
  else if schedule_ok = false then
    (vy_scheduler_throttle s, SchedIterAction.throttle)
  else if has_task then
    (s, SchedIterAction.dispatch)
  else
    (s, SchedIterAction.wait)

theorem vy_scheduler_throttle_timeout (s : VyScheduler) :
    (vy_scheduler_throttle s).timeout = min (max (s.timeout * 2) 1) 60 := by
  simp only [vy_scheduler_throttle, VY_SCHEDULER_TIMEOUT_MIN,
    VY_SCHEDULER_TIMEOUT_MAX]
  by_cases h1 : s.timeout * 2 < 1
  · rw [if_pos h1]
    norm_num
    rw [max_eq_right (le_of_lt h1)]
    norm_num
  · rw [if_neg h1]
    rw [max_eq_left (le_of_not_lt h1)]
    by_cases h2 : s.timeout * 2 > 60
    · rw [if_pos h2, min_eq_right (le_of_lt h2)]
    · rw [if_neg h2, min_eq_left (le_of_not_lt h2)]

/-- Claim C4: an iteration of the scheduler loop in which some completed
task failed and none succeeded sets the timeout to clamp(timeout * 2, 1,
60), sets is_throttled for the sleep and takes the throttle action; while
throttled, begin_checkpoint fails immediately with the cached diagnostic
and dump fails on its first check with the cached diagnostic; any
iteration completing at least one task successfully resets the timeout
to 0. -/
theorem claim_C4_backoff (results : List Bool) (so ht : Bool) (now : ℚ)
    (s t : VyScheduler)
    (hdone : results.count true = 0)
    (hfail : 0 < results.count false)
    (hthr : t.is_throttled = true)
    (htck : t.checkpoint_in_progress = false)
    (htinv : t.dump_generation ≤ t.generation) :
    ((vy_scheduler_f_iteration results so ht s).1.timeout =
        min (max (s.timeout * 2) 1) 60 ∧
      (vy_scheduler_f_iteration results so ht s).1.is_throttled = true ∧
      (vy_scheduler_f_iteration results so ht s).2 =
        SchedIterAction.throttle) ∧
    vy_scheduler_begin_checkpoint now t = (t, CkptResult.err t.sched_diag) ∧
    (vy_scheduler_dump_step now t).2 = DumpCallResult.err t.sched_diag ∧
    (∀ (results2 : List Bool) (so2 ht2 : Bool) (u : VyScheduler),
      0 < results2.count true →
      (vy_scheduler_f_iteration results2 so2 ht2 u).1.timeout = 0) := by
  refine ⟨?_, ?_, ?_, ?_⟩
  · simp only [vy_scheduler_f_iteration, hdone, hfail, lt_irrefl,
      if_false, if_pos hfail]
    exact ⟨vy_scheduler_throttle_timeout s, rfl, rfl⟩
  · simp [vy_scheduler_begin_checkpoint, hthr]
  · have h2 : t.dump_generation < t.generation + 1 := by omega
    by_cases hd : t.dump_generation < t.generation <;>
      simp [vy_scheduler_dump_step, vy_scheduler_dump_in_progress, htck,
        hthr, hd, h2]
  · intro results2 so2 ht2 u hd2
    simp [vy_scheduler_f_iteration, hd2]

/-- Concrete throttled scheduler state. -/
def schedThr : VyScheduler :=
  { generation := 0, dump_generation := 0, dump_task_count := 0,
    dump_start := 0, checkpoint_in_progress := false, dump_pending := false,
    is_throttled := true, timeout := 1, sched_diag := 7, dump_heap := [] }

theorem claim_C4_witness :
    ((vy_scheduler_f_iteration [false] true false sched0).1.timeout =
        min (max (sched0.timeout * 2) 1) 60 ∧
      (vy_scheduler_f_iteration [false] true false sched0).1.is_throttled =
        true ∧
      (vy_scheduler_f_iteration [false] true false sched0).2 =
        SchedIterAction.throttle) ∧
    vy_scheduler_begin_checkpoint 0 schedThr =
      (schedThr, CkptResult.err schedThr.sched_diag) ∧
    (vy_scheduler_dump_step 0 schedThr).2 =
      DumpCallResult.err schedThr.sched_diag ∧
    (∀ (results2 : List Bool) (so2 ht2 : Bool) (u : VyScheduler),
      0 < results2.count true →
      (vy_scheduler_f_iteration results2 so2 ht2 u).1.timeout = 0) :=
  claim_C4_backoff [false] true false 0 sched0 schedThr (by decide)
    (by decide) (by rfl) (by rfl) (by decide)

/-- VY_DEFERRED_DELETE_BATCH_MAX: max statements per deferred batch. -/
def VY_DEFERRED_DELETE_BATCH_MAX : Nat := 100

/-- MAX_IN_PROGRESS: cap on deferred-DELETE batches in flight per task. -/
def MAX_IN_PROGRESS : Nat := 10

/-- Deferred DELETE statement: the overwritten tuple and the statement
that overwrote it, as abstract tuple tokens. -/
structure VyDeferredDeleteStmt where
  old_stmt : Nat
  new_stmt : Nat
  deriving Repr, DecidableEq

/-- Deferred-DELETE side of a vinyl task: the accumulating batch (none
when no batch is allocated) and the count of batches sent to tx and not
yet acknowledged. -/
structure VyTaskDD where
  deferred_delete_batch : Option (List VyDeferredDeleteStmt)
  deferred_delete_in_progress : Nat
  deriving Repr, DecidableEq

/-- vy_task_deferred_delete_flush: a no-op when no batch is accumulated;
otherwise the batch is shipped to tx (returned as the second component)
and the in-flight counter is incremented. -/
def vy_task_deferred_delete_flush (t : VyTaskDD) :
    VyTaskDD × Option (List VyDeferredDeleteStmt) :=
  match t.deferred_delete_batch with
  | none => (t, none)
  | some b =>
      ({ deferred_delete_batch := none,
         deferred_delete_in_progress :=
           t.deferred_delete_in_progress + 1 }, some b)

/-- Event observed by one call of vy_task_deferred_delete_process. -/
inductive DDProcessEvent where
  | appended
  | flushed (batch : List VyDeferredDeleteStmt)
  | blocked
  deriving Repr, DecidableEq

/-- vy_task_deferred_delete_process: while MAX_IN_PROGRESS batches are in
flight the task-fiber sleeps (the call blocks and nothing changes);
otherwise the statement pair is appended to the batch, allocated on
demand, and the batch is flushed once it holds
VY_DEFERRED_DELETE_BATCH_MAX statements. -/
def vy_task_deferred_delete_process (old_stmt new_stmt : Nat)
    (t : VyTaskDD) : VyTaskDD × DDProcessEvent :=
  if MAX_IN_PROGRESS ≤ t.deferred_delete_in_progress then
    (t, DDProcessEvent.blocked)
  else
    let b := t.deferred_delete_batch.getD [] ++
      [{ old_stmt := old_stmt, new_stmt := new_stmt }]
    if b.length = VY_DEFERRED_DELETE_BATCH_MAX then
      let r := vy_task_deferred_delete_flush
        { t with deferred_delete_batch := some b }
      (r.1, DDProcessEvent.flushed (r.2.getD []))
    else
      ({ t with deferred_delete_batch := some b }, DDProcessEvent.appended)

/-- vy_deferred_delete_batch_free_f on the worker side: tx acknowledged
one batch (precondition, asserted in the source: the in-flight count is
positive). -/
def vy_deferred_delete_batch_free (t : VyTaskDD) : VyTaskDD :=
  { t with deferred_delete_in_progress :=
      t.deferred_delete_in_progress - 1 }

/-- vy_task_deferred_delete_destroy: flush the partial batch, then return
only once no batch is in flight; the boolean tells whether the call
returns without sleeping. -/
def vy_task_deferred_delete_destroy (t : VyTaskDD) :
    VyTaskDD × Option (List VyDeferredDeleteStmt) × Bool :=
  let r := vy_task_deferred_delete_flush t
  (r.1, r.2, decide (r.1.deferred_delete_in_progress = 0))

/-- Deferred-DELETE channel states reachable from a fresh task. -/
inductive DDReach : VyTaskDD → Prop where
  | init : DDReach ⟨none, 0⟩
  | process (old_stmt new_stmt : Nat) (t : VyTaskDD) : DDReach t →
      DDReach (vy_task_deferred_delete_process old_stmt new_stmt t).1
  | free (t : VyTaskDD) (h : 0 < t.deferred_delete_in_progress) :
      DDReach t → DDReach (vy_deferred_delete_batch_free t)
  | destroy (t : VyTaskDD) : DDReach t →
      DDReach (vy_task_deferred_delete_destroy t).1

/-- Invariant of the deferred-DELETE channel: at most MAX_IN_PROGRESS
batches in flight; a stored batch holds between 1 and 99 statements (a
full batch of 100 is flushed inside the same process call) and can only
exist while fewer than MAX_IN_PROGRESS batches are in flight. -/
def DDInv (t : VyTaskDD) : Prop :=
  t.deferred_delete_in_progress ≤ MAX_IN_PROGRESS ∧
    ∀ b, t.deferred_delete_batch = some b →
      1 ≤ b.length ∧ b.length ≤ VY_DEFERRED_DELETE_BATCH_MAX - 1 ∧
        t.deferred_delete_in_progress < MAX_IN_PROGRESS

theorem DDReach_inv {t : VyTaskDD} (h : DDReach t) : DDInv t := by
  induction h with
  | init =>
    refine ⟨by norm_num [MAX_IN_PROGRESS], ?_⟩
    intro b hb
    cases hb
  | process old_stmt new_stmt t ht ih =>
    obtain ⟨hip, hb⟩ := ih
    have hM : MAX_IN_PROGRESS = 10 := rfl
    have hV : VY_DEFERRED_DELETE_BATCH_MAX = 100 := rfl
    by_cases hcap : MAX_IN_PROGRESS ≤ t.deferred_delete_in_progress
    · simpa [vy_task_deferred_delete_process, hcap] using ⟨hip, hb⟩
    · have hlen : (t.deferred_delete_batch.getD []).length ≤
          VY_DEFERRED_DELETE_BATCH_MAX - 1 := by
        cases hbt : t.deferred_delete_batch with
        | none => simp [VY_DEFERRED_DELETE_BATCH_MAX]
        | some b => simpa using (hb b hbt).2.1
      by_cases h100 : (t.deferred_delete_batch.getD []).length + 1 =
          VY_DEFERRED_DELETE_BATCH_MAX
      · refine ⟨?_, ?_⟩
        · simp only [vy_task_deferred_delete_process, if_neg hcap,
            List.length_append, List.length_cons, List.length_nil,
            Nat.zero_add, if_pos h100, vy_task_deferred_delete_flush]
          omega
        · intro b hbeq
          simp only [vy_task_deferred_delete_process, if_neg hcap,
            List.length_append, List.length_cons, List.length_nil,
            Nat.zero_add, if_pos h100, vy_task_deferred_delete_flush]
            at hbeq
          cases hbeq
      · refine ⟨?_, ?_⟩
        · simpa [vy_task_deferred_delete_process, hcap, h100] using hip
        · intro b hbeq
          simp only [vy_task_deferred_delete_process, if_neg hcap,
            List.length_append, List.length_cons, List.length_nil,
            Nat.zero_add, if_neg h100] at hbeq
          have hbv : b = t.deferred_delete_batch.getD [] ++
              [{ old_stmt := old_stmt, new_stmt := new_stmt }] :=
            (Option.some_inj.mp hbeq).symm
          subst hbv
          simp only [List.length_append, List.length_cons, List.length_nil,
            Nat.zero_add, vy_task_deferred_delete_process, if_neg hcap,
            if_neg h100]
          refine ⟨by omega, by omega, by omega⟩
  | free t hpos ht ih =>
    obtain ⟨hip, hb⟩ := ih
    refine ⟨?_, ?_⟩
    · simp only [vy_deferred_delete_batch_free]
      omega
    · intro b hbeq
      simp only [vy_deferred_delete_batch_free] at hbeq
      obtain ⟨h1, h2, h3⟩ := hb b hbeq
      exact ⟨h1, h2, by simp only [vy_deferred_delete_batch_free]; omega⟩
  | destroy t ht ih =>
    obtain ⟨hip, hb⟩ := ih
    cases hbt : t.deferred_delete_batch with
    | none =>
      refine ⟨?_, ?_⟩
      · simpa [vy_task_deferred_delete_destroy,
          vy_task_deferred_delete_flush, hbt] using hip
      · intro b hbeq
        simp [vy_task_deferred_delete_destroy,
          vy_task_deferred_delete_flush, hbt] at hbeq
    | some b2 =>
      obtain ⟨h1, h2, h3⟩ := hb b2 hbt
      refine ⟨?_, ?_⟩
      · simp only [vy_task_deferred_delete_destroy,
          vy_task_deferred_delete_flush, hbt]
        omega
      · intro b hbeq
        simp [vy_task_deferred_delete_destroy,
          vy_task_deferred_delete_flush, hbt] at hbeq

/-- Claim C6: in every reachable deferred-DELETE channel state the batch
holds at most 100 statements and a process call flushes exactly when the
appended batch reaches 100 entries; the in-flight count never exceeds 10
and a process call made with 10 batches in flight suspends the
task-fiber, changing nothing; destroy flushes the partial batch and
returns without sleeping exactly when no batch remains in flight. -/
theorem claim_C6_deferred_delete_channel (t : VyTaskDD)
    (h : DDReach t) (old_stmt new_stmt : Nat) :
    (t.deferred_delete_in_progress ≤ 10 ∧
      (∀ b, t.deferred_delete_batch = some b → b.length ≤ 100)) ∧
    (∀ b, (vy_task_deferred_delete_process old_stmt new_stmt t).2 =
        DDProcessEvent.flushed b ↔
      (t.deferred_delete_in_progress < 10 ∧
        b = t.deferred_delete_batch.getD [] ++
          [{ old_stmt := old_stmt, new_stmt := new_stmt }] ∧
        b.length = 100)) ∧
    ((vy_task_deferred_delete_process old_stmt new_stmt t).2 =
        DDProcessEvent.blocked ↔ 10 ≤ t.deferred_delete_in_progress) ∧
    (10 ≤ t.deferred_delete_in_progress →
      (vy_task_deferred_delete_process old_stmt new_stmt t).1 = t) ∧
    (vy_task_deferred_delete_destroy t).1.deferred_delete_batch = none ∧
    ((vy_task_deferred_delete_destroy t).2.2 = true ↔
      (vy_task_deferred_delete_destroy t).1.deferred_delete_in_progress
        = 0) := by
  obtain ⟨hip, hb⟩ := DDReach_inv h
  have hM : MAX_IN_PROGRESS = 10 := rfl
  have hV : VY_DEFERRED_DELETE_BATCH_MAX = 100 := rfl
  refine ⟨⟨by omega, ?_⟩, ?_, ?_, ?_, ?_, ?_⟩
  · intro b hbe
    have := (hb b hbe).2.1
    omega
  · intro b
    by_cases hcap : MAX_IN_PROGRESS ≤ t.deferred_delete_in_progress
    · simp only [vy_task_deferred_delete_process, if_pos hcap]
      constructor
      · intro he
        cases he
      · rintro ⟨h1, -, -⟩
        omega
    · by_cases h100 : (t.deferred_delete_batch.getD []).length + 1 =
          VY_DEFERRED_DELETE_BATCH_MAX
      · simp only [vy_task_deferred_delete_process, if_neg hcap,
          List.length_append, List.length_cons, List.length_nil,
          Nat.zero_add, if_pos h100, vy_task_deferred_delete_flush]
        constructor
        · intro he
          cases he
          refine ⟨by omega, rfl, ?_⟩
          simp only [Option.getD_some, List.length_append,
            List.length_cons, List.length_nil]
          omega
        · rintro ⟨-, hbe, -⟩
          simp only [Option.getD_some]
          exact congrArg DDProcessEvent.flushed hbe.symm
      · simp only [vy_task_deferred_delete_process, if_neg hcap,
          List.length_append, List.length_cons, List.length_nil,
          Nat.zero_add, if_neg h100]
        constructor
        · intro he
          cases he
        · rintro ⟨-, hbe, hl⟩
          subst hbe
          simp only [List.length_append, List.length_cons,
            List.length_nil] at hl
          omega
  · by_cases hcap : MAX_IN_PROGRESS ≤ t.deferred_delete_in_progress
    · simp only [vy_task_deferred_delete_process, if_pos hcap]
      simp only [true_iff]
      omega
    · simp only [vy_task_deferred_delete_process, if_neg hcap]
      by_cases h100 : (t.deferred_delete_batch.getD []).length + 1 =
          VY_DEFERRED_DELETE_BATCH_MAX
      · simp only [List.length_append, List.length_cons, List.length_nil,
          Nat.zero_add, if_pos h100]
        constructor
        · intro he
          cases he
        · intro hge
          omega
      · simp only [List.length_append, List.length_cons, List.length_nil,
          Nat.zero_add, if_neg h100]
        constructor
        · intro he
          cases he
        · intro hge
          omega
  · intro hge
    have hcap : MAX_IN_PROGRESS ≤ t.deferred_delete_in_progress := by omega
    simp only [vy_task_deferred_delete_process, if_pos hcap]
  · cases hbt : t.deferred_delete_batch with
    | none =>
      simp [vy_task_deferred_delete_destroy,
        vy_task_deferred_delete_flush, hbt]
    | some b2 =>
      simp [vy_task_deferred_delete_destroy,
        vy_task_deferred_delete_flush, hbt]
  · simp only [vy_task_deferred_delete_destroy, decide_eq_true_eq]

/-- Claim C10: every deferred-DELETE batch shipped to the tx-side
batch-process callback is non-empty, holding between 1 and 100
statements: a batch is allocated only when a statement is appended,
flush is a no-op when the task has no current batch, a process-triggered
flush ships exactly 100 statements and a destroy-triggered flush ships
the partial batch of fewer than 100 statements. -/
theorem claim_C10_shipped_batches_nonempty (t : VyTaskDD)
    (h : DDReach t) :
    (t.deferred_delete_batch = none →
      vy_task_deferred_delete_flush t = (t, none)) ∧
    (∀ old_stmt new_stmt b,
      (vy_task_deferred_delete_process old_stmt new_stmt t).2 =
        DDProcessEvent.flushed b →
      1 ≤ b.length ∧ b.length ≤ 100) ∧
    (∀ b, (vy_task_deferred_delete_destroy t).2.1 = some b →
      1 ≤ b.length ∧ b.length ≤ 100) := by
  obtain ⟨hip, hb⟩ := DDReach_inv h
  have hM : MAX_IN_PROGRESS = 10 := rfl
  have hV : VY_DEFERRED_DELETE_BATCH_MAX = 100 := rfl
  refine ⟨?_, ?_, ?_⟩
  · intro hbt
    simp [vy_task_deferred_delete_flush, hbt]
  · intro old_stmt new_stmt b he
    by_cases hcap : MAX_IN_PROGRESS ≤ t.deferred_delete_in_progress
    · simp only [vy_task_deferred_delete_process, if_pos hcap] at he
      cases he
    · by_cases h100 : (t.deferred_delete_batch.getD []).length + 1 =
          VY_DEFERRED_DELETE_BATCH_MAX
      · simp only [vy_task_deferred_delete_process, if_neg hcap,
          List.length_append, List.length_cons, List.length_nil,
          Nat.zero_add, if_pos h100, vy_task_deferred_delete_flush]
          at he
        cases he
        simp only [Option.getD_some, List.length_append,
          List.length_cons, List.length_nil]
        omega
      · simp only [vy_task_deferred_delete_process, if_neg hcap,
          List.length_append, List.length_cons, List.length_nil,
          Nat.zero_add, if_neg h100] at he
        cases he
  · intro b hbe
    cases hbt : t.deferred_delete_batch with
    | none =>
      simp [vy_task_deferred_delete_destroy,
        vy_task_deferred_delete_flush, hbt] at hbe
    | some b2 =>
      simp only [vy_task_deferred_delete_destroy,
        vy_task_deferred_delete_flush, hbt] at hbe
      obtain ⟨h1, h2, -⟩ := hb b2 hbt
      have hbv : b2 = b := Option.some_inj.mp hbe
      subst hbv
      exact ⟨h1, by omega⟩

theorem claim_C6_witness :
    ((⟨none, 0⟩ : VyTaskDD).deferred_delete_in_progress ≤ 10 ∧
      (∀ b, (⟨none, 0⟩ : VyTaskDD).deferred_delete_batch = some b →
        b.length ≤ 100)) ∧
    (∀ b, (vy_task_deferred_delete_process 1 2 ⟨none, 0⟩).2 =
        DDProcessEvent.flushed b ↔
      ((⟨none, 0⟩ : VyTaskDD).deferred_delete_in_progress < 10 ∧
        b = (⟨none, 0⟩ : VyTaskDD).deferred_delete_batch.getD [] ++
          [{ old_stmt := 1, new_stmt := 2 }] ∧
        b.length = 100)) ∧
    ((vy_task_deferred_delete_process 1 2 ⟨none, 0⟩).2 =
        DDProcessEvent.blocked ↔
      10 ≤ (⟨none, 0⟩ : VyTaskDD).deferred_delete_in_progress) ∧
    (10 ≤ (⟨none, 0⟩ : VyTaskDD).deferred_delete_in_progress →
      (vy_task_deferred_delete_process 1 2 ⟨none, 0⟩).1 = ⟨none, 0⟩) ∧
    (vy_task_deferred_delete_destroy ⟨none, 0⟩).1.deferred_delete_batch
      = none ∧
    ((vy_task_deferred_delete_destroy ⟨none, 0⟩).2.2 = true ↔
      (vy_task_deferred_delete_destroy
        ⟨none, 0⟩).1.deferred_delete_in_progress = 0) :=
  claim_C6_deferred_delete_channel ⟨none, 0⟩ DDReach.init 1 2

theorem claim_C10_witness :
    ((⟨none, 0⟩ : VyTaskDD).deferred_delete_batch = none →
      vy_task_deferred_delete_flush ⟨none, 0⟩ = (⟨none, 0⟩, none)) ∧
    (∀ old_stmt new_stmt b,
      (vy_task_deferred_delete_process old_stmt new_stmt ⟨none, 0⟩).2 =
        DDProcessEvent.flushed b →
      1 ≤ b.length ∧ b.length ≤ 100) ∧
    (∀ b, (vy_task_deferred_delete_destroy ⟨none, 0⟩).2.1 = some b →
      1 ≤ b.length ∧ b.length ≤ 100) :=
  claim_C10_shipped_batches_nonempty ⟨none, 0⟩ DDReach.init

/-- Metadata-log record kinds emitted by the scheduler (vy_log
interface, external collaborator). -/
inductive VylogRec where
  | prepare_run (lsm_id run_id : Nat)
  | create_run (lsm_id run_id : Nat) (dump_lsn : Int)
  | insert_slice (range_id run_id slice_id : Nat)
  | delete_slice (slice_id : Nat)
  | drop_run (run_id : Nat) (gc_lsn : Int)
  | forget_run (run_id : Nat)
  | dump_lsm (lsm_id : Nat) (dump_lsn : Int)
  deriving Repr, DecidableEq

/-- Recognizer for dump-lsm records. -/
def VylogRec.isDumpLsm : VylogRec → Bool
  | VylogRec.dump_lsm _ _ => true
  | _ => false

/-- Recognizer for create-run records. -/
def VylogRec.isCreateRun : VylogRec → Bool
  | VylogRec.create_run _ _ _ => true
  | _ => false

/-- Recognizer for insert-slice records. -/
def VylogRec.isInsertSlice : VylogRec → Bool
  | VylogRec.insert_slice _ _ _ => true
  | _ => false

/-- vy_run_discard: drop an unused run, logging a drop-run record with
gc_lsn 0 in its own vylog transaction (error injection disabled). -/
def vy_run_discard (run : VyRun) : List VylogRec :=
  [VylogRec.drop_run run.id 0]

/-- Output of vy_task_dump_complete: the vylog records written, the
updated LSM tree and scheduler, the dump_complete_cb invocation and
dump_cond signal produced by complete_dump, whether the primary was
unpinned, and that complete_dump ran. -/
structure DumpCompleteOut where
  vylog : List VylogRec
  lsm : VyLsm
  sched : VyScheduler
  cb : Option (Int × ℚ)
  sig_dump : Bool
  unpinned_pk : Bool
  complete_dump_called : Bool

/-- vy_task_dump_complete on the success path (vylog commits succeed).
The ranges intersecting the new run and the ids of the slices allocated
for them are parameters, because the range-tree lookup
(vy_range_tree_psearch and next) and id allocation (vy_log_next_id)
belong to external collaborators; range slice attachment and statistics
accounting are external LSM-tree operations and are not tracked. -/
def vy_task_dump_complete (now : ℚ) (sched : VyScheduler) (lsm : VyLsm)
    (new_run : VyRun) (ranges : List Nat) (slice_ids : List Nat) :
    DumpCompleteOut :=
  let log_head : List VylogRec :=
    if new_run.is_empty then
      VylogRec.dump_lsm lsm.id new_run.dump_lsn :: vy_run_discard new_run
    else
      (VylogRec.create_run lsm.id new_run.id new_run.dump_lsn ::
        (ranges.zip slice_ids).map
          (fun p => VylogRec.insert_slice p.1 new_run.id p.2)) ++
      [VylogRec.dump_lsm lsm.id new_run.dump_lsn]
  let lsm1 := { lsm with
    sealed := lsm.sealed.filter
      (fun m => decide (sched.dump_generation < m.generation)),
    dump_lsn := max lsm.dump_lsn new_run.dump_lsn,
    is_dumping := false }
  let sched1 := { sched with
    dump_heap := sched.dump_heap.map
      (fun l => if l.id = lsm.id then lsm1 else l),
    dump_task_count := sched.dump_task_count - 1 }
  let r := vy_scheduler_complete_dump now sched1
  { vylog := log_head, lsm := lsm1, sched := r.1, cb := r.2.1,
    sig_dump := r.2.2, unpinned_pk := decide (lsm.index_id ≠ 0),
    complete_dump_called := true }

theorem vy_scheduler_complete_dump_task_count (now : ℚ)
    (s : VyScheduler) :
    (vy_scheduler_complete_dump now s).1.dump_task_count =
      s.dump_task_count := by
  simp only [vy_scheduler_complete_dump]
  split_ifs <;> rfl

/-- Claim C8: completing a dump task whose produced run is empty logs
exactly one dump-lsm record and no create-run or insert-slice record,
discards the new run (drop-run with gc_lsn 0), deletes every sealed
in-memory tree with generation at most dump_generation, sets the LSM
dump_lsn to the maximum of its old value and the run dump_lsn, clears
is_dumping, decrements dump_task_count and invokes complete_dump. -/
theorem claim_C8_empty_dump_complete (now : ℚ) (sched : VyScheduler)
    (lsm : VyLsm) (new_run : VyRun) (ranges slice_ids : List Nat)
    (hempty : new_run.is_empty = true)
    (hdumping : lsm.is_dumping = true)
    (hcount : 0 < sched.dump_task_count) :
    (vy_task_dump_complete now sched lsm new_run ranges
        slice_ids).vylog.filter VylogRec.isDumpLsm =
      [VylogRec.dump_lsm lsm.id new_run.dump_lsn] ∧
    (vy_task_dump_complete now sched lsm new_run ranges
        slice_ids).vylog.filter VylogRec.isCreateRun = [] ∧
    (vy_task_dump_complete now sched lsm new_run ranges
        slice_ids).vylog.filter VylogRec.isInsertSlice = [] ∧
    VylogRec.drop_run new_run.id 0 ∈
      (vy_task_dump_complete now sched lsm new_run ranges
        slice_ids).vylog ∧
    (∀ m, m ∈ (vy_task_dump_complete now sched lsm new_run ranges
        slice_ids).lsm.sealed ↔
      (m ∈ lsm.sealed ∧ sched.dump_generation < m.generation)) ∧
    (vy_task_dump_complete now sched lsm new_run ranges
        slice_ids).lsm.dump_lsn = max lsm.dump_lsn new_run.dump_lsn ∧
    (vy_task_dump_complete now sched lsm new_run ranges
        slice_ids).lsm.is_dumping = false ∧
    (vy_task_dump_complete now sched lsm new_run ranges
        slice_ids).sched.dump_task_count = sched.dump_task_count - 1 ∧
    (vy_task_dump_complete now sched lsm new_run ranges
        slice_ids).complete_dump_called = true := by
  refine ⟨?_, ?_, ?_, ?_, ?_, ?_, ?_, ?_, ?_⟩
  · simp [vy_task_dump_complete, hempty, vy_run_discard,
      VylogRec.isDumpLsm]
  · simp [vy_task_dump_complete, hempty, vy_run_discard,
      VylogRec.isCreateRun]
  · simp [vy_task_dump_complete, hempty, vy_run_discard,
      VylogRec.isInsertSlice]
  · simp [vy_task_dump_complete, hempty, vy_run_discard]
  · intro m
    simp [vy_task_dump_complete, List.mem_filter]
  · simp [vy_task_dump_complete]
  · simp [vy_task_dump_complete]
  · simp only [vy_task_dump_complete]
    rw [vy_scheduler_complete_dump_task_count]
  · simp [vy_task_dump_complete]

/-- Concrete scheduler state for the empty-dump witness. -/
def sched8 : VyScheduler :=
  { generation := 1, dump_generation := 0, dump_task_count := 1,
    dump_start := 0, checkpoint_in_progress := false, dump_pending := false,
    is_throttled := false, timeout := 0, sched_diag := 0, dump_heap := [] }

/-- Concrete LSM tree for the empty-dump witness. -/
def lsm8 : VyLsm :=
  { id := 5, index_id := 0, space_id := 3, generation := 0,
    is_dumping := true, is_dropped := false, pin_count := 0,
    sealed := [{ generation := 0, count := 4 },
               { generation := 1, count := 2 }], dump_lsn := 4 }

/-- Concrete empty run for the empty-dump witness. -/
def run8 : VyRun := { id := 9, dump_lsn := 6, is_empty := true }

theorem claim_C8_witness :
    (vy_task_dump_complete 0 sched8 lsm8 run8 [] []).vylog.filter
        VylogRec.isDumpLsm =
      [VylogRec.dump_lsm lsm8.id run8.dump_lsn] ∧
    (vy_task_dump_complete 0 sched8 lsm8 run8 [] []).vylog.filter
      VylogRec.isCreateRun = [] ∧
    (vy_task_dump_complete 0 sched8 lsm8 run8 [] []).vylog.filter
      VylogRec.isInsertSlice = [] ∧
    VylogRec.drop_run run8.id 0 ∈
      (vy_task_dump_complete 0 sched8 lsm8 run8 [] []).vylog ∧
    (∀ m, m ∈ (vy_task_dump_complete 0 sched8 lsm8 run8 [] []).lsm.sealed ↔
      (m ∈ lsm8.sealed ∧ sched8.dump_generation < m.generation)) ∧
    (vy_task_dump_complete 0 sched8 lsm8 run8 [] []).lsm.dump_lsn =
      max lsm8.dump_lsn run8.dump_lsn ∧
    (vy_task_dump_complete 0 sched8 lsm8 run8 [] []).lsm.is_dumping =
      false ∧
    (vy_task_dump_complete 0 sched8 lsm8 run8 [] []).sched.dump_task_count
      = sched8.dump_task_count - 1 ∧
    (vy_task_dump_complete 0 sched8 lsm8 run8 [] []).complete_dump_called
      = true :=
  claim_C8_empty_dump_complete 0 sched8 lsm8 run8 [] [] rfl rfl
    (by norm_num [sched8])

/-- Slice participating in a compaction: its id and the id of the run it
belongs to (vy_slice, external). -/
structure VySlice where
  id : Nat
  run_id : Nat
  deriving Repr, DecidableEq

/-- Per-run data read by compaction completion: the total number of
slices of the run (slice_count) and the run dump_lsn (vy_run,
external). -/
structure VyRunInfo where
  slice_count : Nat
  dump_lsn : Int
  deriving Repr, DecidableEq

/-- Number of compacted slices belonging to run r. -/
def vy_compacted_count (slices : List VySlice) (r : Nat) : Nat :=
  List.countP (fun s => decide (s.run_id = r)) slices

/-- First loop of vy_task_compact_complete: walk the compacted slices
from first_slice to last_slice incrementing compacted_slice_count (the
map c) on the run of each slice. -/
def vy_compact_mark (slices : List VySlice) (c : Nat → Nat) : Nat → Nat :=
  match slices with
  | [] => c
  | s :: rest =>
      vy_compact_mark rest
        (fun r => if r = s.run_id then c r + 1 else c r)

/-- Second loop of vy_task_compact_complete: walk the compacted slices
again, collect every run whose compacted_slice_count equals its
slice_count, and reset the counter of the run of each visited slice to
0, so that a run is collected at most once. -/
def vy_compact_collect (runs : Nat → VyRunInfo) (slices : List VySlice)
    (c : Nat → Nat) : List Nat :=
  match slices with
  | [] => []
  | s :: rest =>
      let tail := vy_compact_collect runs rest
        (fun r => if r = s.run_id then 0 else c r)
      if c s.run_id = (runs s.run_id).slice_count then s.run_id :: tail
      else tail

/-- The unused-runs computation of vy_task_compact_complete: mark, then
collect with reset. -/
def vy_task_compact_complete_unused (runs : Nat → VyRunInfo)
    (slices : List VySlice) : List Nat :=
  vy_compact_collect runs slices (vy_compact_mark slices (fun _ => 0))

theorem vy_compact_mark_eq (slices : List VySlice) :
    ∀ (c : Nat → Nat) (r : Nat),
      vy_compact_mark slices c r = c r + vy_compacted_count slices r := by
  induction slices with
  | nil =>
    intro c r
    simp [vy_compact_mark, vy_compacted_count]
  | cons s rest ih =>
    intro c r
    simp only [vy_compact_mark]
    rw [ih]
    by_cases h : r = s.run_id
    · subst h
      simp [vy_compacted_count, List.countP_cons]
      omega
    · have h2 : ¬(s.run_id = r) := fun he => h he.symm
      simp [vy_compacted_count, List.countP_cons, h, h2]

theorem vy_compact_collect_spec (runs : Nat → VyRunInfo)
    (slices : List VySlice) :
    ∀ c : Nat → Nat,
      (∀ r, (c r = vy_compacted_count slices r ∧
              vy_compacted_count slices r ≤ (runs r).slice_count) ∨
            (c r = 0 ∧ 0 < (runs r).slice_count)) →
      ((∀ r, r ∈ vy_compact_collect runs slices c ↔
          (0 < vy_compacted_count slices r ∧
            c r = (runs r).slice_count)) ∧
        (vy_compact_collect runs slices c).Nodup) := by
  induction slices with
  | nil =>
    intro c hc
    refine ⟨?_, by simp [vy_compact_collect]⟩
    intro r
    simp [vy_compact_collect, vy_compacted_count]
  | cons s rest ih =>
    intro c hc
    have hpos : 0 < (runs s.run_id).slice_count := by
      rcases hc s.run_id with ⟨h1, h2⟩ | ⟨-, h2⟩
      · have hx : 0 < vy_compacted_count (s :: rest) s.run_id := by
          simp [vy_compacted_count, List.countP_cons]
        omega
      · exact h2
    have hinv2 : ∀ r,
        ((fun r => if r = s.run_id then 0 else c r) r =
            vy_compacted_count rest r ∧
          vy_compacted_count rest r ≤ (runs r).slice_count) ∨
        ((fun r => if r = s.run_id then 0 else c r) r = 0 ∧
          0 < (runs r).slice_count) := by
      intro r
      by_cases hr : r = s.run_id
      · subst hr
        exact Or.inr ⟨by simp, hpos⟩
      · have hocc : vy_compacted_count rest r =
            vy_compacted_count (s :: rest) r := by
          have h2 : ¬(s.run_id = r) := fun he => hr he.symm
          simp [vy_compacted_count, List.countP_cons, h2]
        rcases hc r with ⟨h1, h2⟩ | ⟨h1, h2⟩
        · exact Or.inl ⟨by simpa [hr, hocc] using h1, by omega⟩
        · exact Or.inr ⟨by simpa [hr] using h1, h2⟩
    obtain ⟨ihmem, ihnd⟩ :=
      ih (fun r => if r = s.run_id then 0 else c r) hinv2
    have hnotin : s.run_id ∉ vy_compact_collect runs rest
        (fun r => if r = s.run_id then 0 else c r) := by
      rw [ihmem s.run_id]
      rintro ⟨-, habs⟩
      simp at habs
      omega
    constructor
    · intro r
      by_cases hhit : c s.run_id = (runs s.run_id).slice_count
      · simp only [vy_compact_collect, if_pos hhit, List.mem_cons]
        by_cases hr : r = s.run_id
        · subst hr
          constructor
          · intro _
            refine ⟨?_, hhit⟩
            simp [vy_compacted_count, List.countP_cons]
          · intro _
            exact Or.inl rfl
        · rw [ihmem r]
          have h2 : ¬(s.run_id = r) := fun he => hr he.symm
          have hocc : vy_compacted_count rest r =
              vy_compacted_count (s :: rest) r := by
            simp [vy_compacted_count, List.countP_cons, h2]
          constructor
          · rintro (he | ⟨ho, hco⟩)
            · exact absurd he hr
            · refine ⟨by omega, ?_⟩
              simpa [hr] using hco
          · rintro ⟨ho, hco⟩
            refine Or.inr ⟨by omega, ?_⟩
            simpa [hr] using hco
      · simp only [vy_compact_collect, if_neg hhit]
        rw [ihmem r]
        by_cases hr : r = s.run_id
        · subst hr
          constructor
          · rintro ⟨ho, hco⟩
            simp at hco
            omega
          · rintro ⟨ho, hco⟩
            exact absurd hco hhit
        · have h2 : ¬(s.run_id = r) := fun he => hr he.symm
          have hocc : vy_compacted_count rest r =
              vy_compacted_count (s :: rest) r := by
            simp [vy_compacted_count, List.countP_cons, h2]
          constructor
          · rintro ⟨ho, hco⟩
            exact ⟨by omega, by simpa [hr] using hco⟩
          · rintro ⟨ho, hco⟩
            exact ⟨by omega, by simpa [hr] using hco⟩
    · by_cases hhit : c s.run_id = (runs s.run_id).slice_count
      · simp only [vy_compact_collect, if_pos hhit, List.nodup_cons]
        exact ⟨hnotin, ihnd⟩
      · simpa [vy_compact_collect, hhit] using ihnd

theorem vy_task_compact_complete_unused_spec (runs : Nat → VyRunInfo)
    (slices : List VySlice)
    (hocc : ∀ r, vy_compacted_count slices r ≤ (runs r).slice_count) :
    (∀ r, r ∈ vy_task_compact_complete_unused runs slices ↔
      (0 < vy_compacted_count slices r ∧
        vy_compacted_count slices r = (runs r).slice_count)) ∧
    (vy_task_compact_complete_unused runs slices).Nodup := by
  have h0 : ∀ r, vy_compact_mark slices (fun _ => 0) r =
      vy_compacted_count slices r := by
    intro r
    rw [vy_compact_mark_eq]
    omega
  have hinv : ∀ r,
      (vy_compact_mark slices (fun _ => 0) r =
          vy_compacted_count slices r ∧
        vy_compacted_count slices r ≤ (runs r).slice_count) ∨
      (vy_compact_mark slices (fun _ => 0) r = 0 ∧
        0 < (runs r).slice_count) :=
    fun r => Or.inl ⟨h0 r, hocc r⟩
  obtain ⟨hm, hnd⟩ := vy_compact_collect_spec runs slices _ hinv
  refine ⟨fun r => ?_, hnd⟩
  rw [vy_task_compact_complete_unused, hm r, h0 r]

/-- vy_task_compact_complete on the success path, restricted to the
unused-run computation and the two vylog transactions: the main
transaction logs delete-slice for every compacted slice, drop-run with
gc_lsn = vy_log_signature() for every unused run and, when the new run
is not empty, create-run and insert-slice for it; the follow-up
try-commit transaction logs forget-run for every unused run with
dump_lsn above gc_lsn whose files were removed (file removal is
modelled as succeeding). vy_log_signature and the new slice id are the
parameters gc_lsn and new_slice_id, produced by external collaborators;
the in-memory range surgery acts on external LSM-tree structures and is
not tracked here. -/
def vy_task_compact_complete (lsm_id range_id new_slice_id : Nat)
    (new_run : VyRun) (gc_lsn : Int) (runs : Nat → VyRunInfo)
    (slices : List VySlice) :
    List VylogRec × List VylogRec × List Nat :=
  let unused := vy_task_compact_complete_unused runs slices
  let log1 :=
    (slices.map (fun s => VylogRec.delete_slice s.id)) ++
    (unused.map (fun r => VylogRec.drop_run r gc_lsn)) ++
    (if new_run.is_empty then []
     else [VylogRec.create_run lsm_id new_run.id new_run.dump_lsn,
           VylogRec.insert_slice range_id new_run.id new_slice_id])
  let log2 :=
    (unused.filter (fun r => decide (gc_lsn < (runs r).dump_lsn))).map
      VylogRec.forget_run
  (log1, log2, unused)

/-- Claim C9: in compaction completion a run is collected as unused
exactly when every one of its slices is among the compacted slices
(its count of compacted slices is positive and equals its slice_count),
each unused run is collected exactly once, every unused run gets a
drop-run record with gc_lsn = vy_log_signature(), and the follow-up
try-commit transaction holds forget-run records for exactly the unused
runs whose dump_lsn is above gc_lsn. -/
theorem claim_C9_compact_unused_runs (lsm_id range_id new_slice_id : Nat)
    (new_run : VyRun) (gc_lsn : Int) (runs : Nat → VyRunInfo)
    (slices : List VySlice)
    (hocc : ∀ r, vy_compacted_count slices r ≤ (runs r).slice_count) :
    (∀ r, r ∈ (vy_task_compact_complete lsm_id range_id new_slice_id
        new_run gc_lsn runs slices).2.2 ↔
      (0 < vy_compacted_count slices r ∧
        vy_compacted_count slices r = (runs r).slice_count)) ∧
    (vy_task_compact_complete lsm_id range_id new_slice_id new_run
      gc_lsn runs slices).2.2.Nodup ∧
    (∀ r gl, VylogRec.drop_run r gl ∈
        (vy_task_compact_complete lsm_id range_id new_slice_id new_run
          gc_lsn runs slices).1 ↔
      (r ∈ (vy_task_compact_complete lsm_id range_id new_slice_id
          new_run gc_lsn runs slices).2.2 ∧ gl = gc_lsn)) ∧
    (vy_task_compact_complete lsm_id range_id new_slice_id new_run
        gc_lsn runs slices).2.1 =
      ((vy_task_compact_complete lsm_id range_id new_slice_id new_run
          gc_lsn runs slices).2.2.filter
        (fun r => decide (gc_lsn < (runs r).dump_lsn))).map
        VylogRec.forget_run := by
  obtain ⟨hm, hnd⟩ :=
    vy_task_compact_complete_unused_spec runs slices hocc
  refine ⟨?_, ?_, ?_, ?_⟩
  · intro r
    simpa [vy_task_compact_complete] using hm r
  · simpa [vy_task_compact_complete] using hnd
  · intro r gl
    by_cases he : new_run.is_empty <;>
      simp [vy_task_compact_complete, he, List.mem_append,
        List.mem_map] <;>
      constructor
    · rintro ⟨r2, hr2, rfl, rfl⟩
      exact ⟨hr2, rfl⟩
    · rintro ⟨hr, rfl⟩
      exact ⟨r, hr, rfl, rfl⟩
    · rintro ⟨r2, hr2, rfl, rfl⟩
      exact ⟨hr2, rfl⟩
    · rintro ⟨hr, rfl⟩
      exact ⟨r, hr, rfl, rfl⟩
  · rfl

/-- Concrete compacted slices for the compaction witness: two slices of
run 7 and one slice of run 8. -/
def slices9 : List VySlice :=
  [{ id := 1, run_id := 7 }, { id := 2, run_id := 7 },
   { id := 3, run_id := 8 }]

/-- Concrete per-run data for the compaction witness: run 7 has both its
slices compacted, run 8 only one of three. -/
def runs9 : Nat → VyRunInfo := fun r =>
  if r = 7 then { slice_count := 2, dump_lsn := 5 }
  else if r = 8 then { slice_count := 3, dump_lsn := 12 }
  else { slice_count := 1, dump_lsn := 0 }

/-- Concrete non-empty run produced by the compaction witness. -/
def run9 : VyRun := { id := 20, dump_lsn := 12, is_empty := false }

theorem claim_C9_witness :
    (∀ r, r ∈ (vy_task_compact_complete 4 15 21 run9 10 runs9
        slices9).2.2 ↔
      (0 < vy_compacted_count slices9 r ∧
        vy_compacted_count slices9 r = (runs9 r).slice_count)) ∧
    (vy_task_compact_complete 4 15 21 run9 10 runs9
      slices9).2.2.Nodup ∧
    (∀ r gl, VylogRec.drop_run r gl ∈
        (vy_task_compact_complete 4 15 21 run9 10 runs9 slices9).1 ↔
      (r ∈ (vy_task_compact_complete 4 15 21 run9 10 runs9
          slices9).2.2 ∧ gl = 10)) ∧
    (vy_task_compact_complete 4 15 21 run9 10 runs9 slices9).2.1 =
      ((vy_task_compact_complete 4 15 21 run9 10 runs9
          slices9).2.2.filter
        (fun r => decide ((10 : Int) < (runs9 r).dump_lsn))).map
        VylogRec.forget_run :=
  claim_C9_compact_unused_runs 4 15 21 run9 10 runs9 slices9
    (by
      intro r
      by_cases h7 : r = 7
      · subst h7; decide
      · by_cases h8 : r = 8
        · subst h8; decide
        · have h7x : ¬(7 = r) := fun he => h7 he.symm
          have h8x : ¬(8 = r) := fun he => h8 he.symm
          simp [vy_compacted_count, slices9, runs9, List.countP_cons,
            h7, h8, h7x, h8x])
